import Mathlib

/-!
# A shallow embedding of the `ctoai` Go SDK (`sdk.go`, `ux.go`)

The Go package is a thin client: it reads two directories from the process
environment, keeps key/value data in one JSON file per directory, and forwards
everything else to a daemon through `daemon.SimpleRequest` and
`daemon.AsyncRequest`.

Go functions become functions in the monad `Go`, which threads a `World`
(environment variables, files, the daemon's answers, and a trace of the calls
made to the operating system and to the daemon) and ends either by returning or
by panicking.
-/

namespace Ctoai

/-! ## Values, maps, errors -/

/-- The dynamic values an `interface{}` holds in this package. `null` is Go's
`nil`; `func` stands for the values `encoding/json` cannot encode (functions,
channels). Integers stand in for JSON numbers. -/
inductive GoValue where
  | null
  | bool (b : Bool)
  | number (n : Int)
  | str (s : String)
  | slice (elems : List GoValue)
  | object (fields : List (String × GoValue))
  | func
  deriving Repr

/-- A Go `map[string]interface{}`: finitely many distinct keys. -/
abbrev GoMap := AList (fun _ : String => GoValue)

/-- The kinds of error `encoding/json` reports. -/
inductive JsonErrorKind where
  | syntaxError
  | invalidUnmarshal
  | unmarshalType
  | unsupportedType
  deriving DecidableEq, Repr

/-- Go `error` values met in this package. -/
inductive GoError where
  | errorf (msg : String)
  | pathError (op path : String)
  | json (kind : JsonErrorKind)
  | transport (msg : String)
  deriving DecidableEq, Repr

/-- The argument of a Go `panic`. -/
inductive PanicValue where
  | text (msg : String)
  | err (e : GoError)
  | typeAssertion
  deriving DecidableEq, Repr

/-! ## Request bodies of package `daemon`

The struct declarations live in `internal/daemon`; the field names are the ones
the composite literals in `sdk.go` and `ux.go` use. Go `int` fields are integers
here: they are passed through, never computed with. -/

structure PrintBody where
  Text : String
  deriving DecidableEq, Repr

structure SpinnerStartBody where
  Text : String
  deriving DecidableEq, Repr

structure SpinnerStopBody where
  Text : String
  deriving DecidableEq, Repr

structure ProgressBarStartBody where
  Length : Int
  Initial : Int
  Text : String
  deriving DecidableEq, Repr

structure ProgressBarAdvanceBody where
  Increment : Int
  deriving DecidableEq, Repr

structure ProgressBarStopBody where
  Text : String
  deriving DecidableEq, Repr

structure GetSecretBody where
  Key : String
  deriving DecidableEq, Repr

structure SetSecretBody where
  Key : String
  Value : String
  deriving DecidableEq, Repr

/-- The `body interface{}` argument of a daemon request: one of the body
structs, or a `map[string]interface{}` (used by `Track`). -/
inductive RequestBody where
  | print (b : PrintBody)
  | spinnerStart (b : SpinnerStartBody)
  | spinnerStop (b : SpinnerStopBody)
  | progressBarStart (b : ProgressBarStartBody)
  | progressBarAdvance (b : ProgressBarAdvanceBody)
  | progressBarStop (b : ProgressBarStopBody)
  | getSecret (b : GetSecretBody)
  | setSecret (b : SetSecretBody)
  | fields (m : GoMap)

/-! ## The world -/

/-- What a file holds, up to JSON parsing: text that is a JSON document
denoting `v`, or text that is not valid JSON. The order of an object's field
list carries no meaning. -/
inductive FileContents where
  | json (v : GoValue)
  | malformed (text : String)
  deriving Repr

/-- The daemon, seen from the client: what it answers to a fire-and-forget
request (an error or none) and to an await-response request (an error or the
decoded response object). -/
structure Daemon where
  simpleResult : String → RequestBody → Option GoError
  asyncResult : String → RequestBody → Except GoError GoMap

/-- Calls that leave the process. -/
inductive Event where
  | stat (path : String)
  | readFile (path : String)
  | writeFile (path : String) (contents : FileContents) (perm : Nat)
  | simpleRequest (operation : String) (body : RequestBody)
  | asyncRequest (operation : String) (body : RequestBody)

/-- The file an event concerns, if it is a file system call. -/
def Event.filePath : Event → Option String
  | .stat p => some p
  | .readFile p => some p
  | .writeFile p _ _ => some p
  | .simpleRequest _ _ => none
  | .asyncRequest _ _ => none

/-- The process environment, the file system, the daemon, and the calls made so
far. `unreadable` and `unwritable` mark the paths at which `ioutil.ReadFile`
and `ioutil.WriteFile` fail (permissions, missing directory). -/
structure World where
  env : String → Option String
  files : String → Option FileContents
  unreadable : String → Bool
  unwritable : String → Bool
  daemon : Daemon
  trace : List Event

/-- How a Go call ends. -/
inductive Outcome (α : Type) where
  | returned (a : α)
  | panicked (p : PanicValue)

/-- The outcome with a function applied to the value returned, if any. -/
def Outcome.map {α β : Type} (f : α → β) : Outcome α → Outcome β
  | .returned a => .returned (f a)
  | .panicked p => .panicked p

/-- A Go computation: runs in a world, ends in an outcome and a world. -/
def Go (α : Type) : Type := World → Outcome α × World

/-- Sequencing: a panic stops the computation. -/
def Go.bind {α β : Type} (m : Go α) (f : α → Go β) : Go β := fun w =>
  match m w with
  | (.returned a, w') => f a w'
  | (.panicked p, w') => (.panicked p, w')

instance : Monad Go where
  pure a := fun w => (.returned a, w)
  bind := Go.bind

/-- Go's builtin `panic`. -/
def goPanic {α : Type} (p : PanicValue) : Go α := fun w => (.panicked p, w)

/-- Appends an event to the trace. -/
def record (e : Event) : Go Unit := fun w =>
  (.returned (), { w with trace := w.trace ++ [e] })

/-! ## Library calls -/

/-- The call `os.Getenv`: the value of the variable, empty when it is unset. -/
def os.Getenv (name : String) : Go String := fun w =>
  (.returned ((w.env name).getD ""), w)

/-- The call `os.Stat`, reduced to its error result: an error exactly when no file is
at the path. -/
def os.Stat (filename : String) : Go (Option GoError) := do
  record (.stat filename)
  fun w => match w.files filename with
    | some _ => (.returned none, w)
    | none => (.returned (some (.pathError "stat" filename)), w)

/-- The call `ioutil.ReadFile`: the contents, or an error. -/
def ioutil.ReadFile (filename : String) : Go (Except GoError FileContents) := do
  record (.readFile filename)
  fun w => match w.files filename with
    | some c =>
      if w.unreadable filename then (.returned (.error (.pathError "open" filename)), w)
      else (.returned (.ok c), w)
    | none => (.returned (.error (.pathError "open" filename)), w)

/-- The call `ioutil.WriteFile`: creates or truncates the file and writes the contents,
or fails and writes nothing. -/
def ioutil.WriteFile (filename : String) (contents : FileContents) (perm : Nat) :
    Go (Option GoError) := do
  record (.writeFile filename contents perm)
  fun w =>
    if w.unwritable filename then (.returned (some (.pathError "open" filename)), w)
    else (.returned none,
      { w with files := fun p => if p = filename then some contents else w.files p })

mutual
/-- Whether `encoding/json` can encode the value. -/
def GoValue.marshalable : GoValue → Bool
  | .func => false
  | .slice xs => marshalableList xs
  | .object fs => marshalableFields fs
  | _ => true
/-- Whether every value of the list can be encoded. -/
def marshalableList : List GoValue → Bool
  | [] => true
  | x :: xs => x.marshalable && marshalableList xs
/-- Whether every field value can be encoded. -/
def marshalableFields : List (String × GoValue) → Bool
  | [] => true
  | (_, x) :: xs => x.marshalable && marshalableFields xs
end

/-- The entries of a map as the field list of a JSON object. -/
def GoMap.toFields (m : GoMap) : List (String × GoValue) :=
  m.entries.map fun e => (e.1, e.2)

/-- The call `json.Marshal` on a `map[string]interface{}`: the JSON object of its
entries, or an `UnsupportedTypeError`. -/
def json.Marshal (m : GoMap) : Except GoError FileContents :=
  if marshalableFields m.toFields then .ok (.json (.object m.toFields))
  else .error (.json .unsupportedType)

/-- The second argument of `json.Unmarshal`: a pointer to the map (`&data`),
or the map itself (`data`). -/
inductive UnmarshalTarget where
  | pointer
  | value
  deriving DecidableEq, Repr

/-- The call `json.Unmarshal(contents, v)` for `v` a `map[string]interface{}` or a
pointer to one, returning the map afterwards. The input is checked for syntax
first; then, as the package documents, "if v is nil or not a pointer, Unmarshal
returns an InvalidUnmarshalError"; through a pointer, an object's fields are
stored into the map (a later duplicate wins), `null` leaves a nil map, which
reads as the empty one, and any other JSON value is an `UnmarshalTypeError`. -/
def json.Unmarshal (contents : FileContents) (target : UnmarshalTarget) (data : GoMap) :
    Except GoError GoMap :=
  match contents with
  | .malformed _ => .error (.json .syntaxError)
  | .json v =>
    match target with
    | .value => .error (.json .invalidUnmarshal)
    | .pointer =>
      match v with
      | .object fs => .ok (fs.foldl (fun acc f => acc.insert f.1 f.2) data)
      | .null => .ok ∅
      | _ => .error (.json .unmarshalType)

/-- The call `fmt.Errorf` with a format that holds one `%s`: the text before it, the
argument, the text after it. -/
def fmt.Errorf (pre arg post : String) : GoError :=
  .errorf (pre ++ arg ++ post)

/-- Modelled from the spec: `daemon.SimpleRequest` of package `internal/daemon`,
whose source is not at hand. It issues a single outbound call to the
operation's endpoint with the body, ignores the response body, and returns only
the failure, if any. -/
def daemon.SimpleRequest (operation : String) (body : RequestBody) : Go (Option GoError) := do
  record (.simpleRequest operation body)
  fun w => (.returned (w.daemon.simpleResult operation body), w)

/-- Modelled from the spec: `daemon.AsyncRequest` of package `internal/daemon`,
whose source is not at hand. It issues the same style of call and returns the
daemon's JSON response decoded into a key-to-value mapping, or the failure. -/
def daemon.AsyncRequest (operation : String) (body : RequestBody) :
    Go (Except GoError GoMap) := do
  record (.asyncRequest operation body)
  fun w => (.returned (w.daemon.asyncResult operation body), w)

/-! ## `sdk.go` -/

/-- The method `GetStatePath` of `Sdk`. -/
def Sdk.GetStatePath : Go String := do
  let path ← os.Getenv "SDK_STATE_DIR"
  if path = "" then
    goPanic (.text "State directory not found in environment var SDK_STATE_DIR")
  else
    return path

/-- The method `GetConfigPath` of `Sdk`. -/
def Sdk.GetConfigPath : Go String := do
  let path ← os.Getenv "SDK_CONFIG_DIR"
  if path = "" then
    goPanic (.text "Config directory not found in environment var SDK_CONFIG_DIR")
  else
    return path

/-- The struct `kvFile`. -/
structure kvFile where
  filename : String
  data : GoMap

/-- The function `openKVFile`. `json.Unmarshal` is handed `data`, the map
itself. -/
def openKVFile (filename : String) : Go kvFile := do
  let data : GoMap := ∅
  match (← os.Stat filename) with
  | some _ => return { filename := filename, data := data }
  | none =>
    match (← ioutil.ReadFile filename) with
    | .error err => goPanic (.err err)
    | .ok fileContents =>
      match json.Unmarshal fileContents .value data with
      | .error err => goPanic (.err err)
      | .ok data => return { filename := filename, data := data }

/-- The method `get` of `kvFile`: the value, or `nil`. -/
def kvFile.get (kv : kvFile) (key : String) : GoValue :=
  match kv.data.lookup key with
  | some value => value
  | none => .null

/-- The method `set` of `kvFile`. The receiver is a pointer; the store as it is
after the call is returned. -/
def kvFile.set (kv : kvFile) (key : String) (value : GoValue) : Go kvFile := do
  let kv : kvFile := { kv with data := kv.data.insert key value }
  match json.Marshal kv.data with
  | .error err => goPanic (.err err)
  | .ok fileContents =>
    match (← ioutil.WriteFile kv.filename fileContents 0o644) with
    | some err => goPanic (.err err)
    | none => return kv

/-- The method `GetState` of `Sdk`. -/
def Sdk.GetState (key : String) : Go GoValue := do
  let kv ← openKVFile ((← Sdk.GetStatePath) ++ "/state.json")
  return kv.get key

/-- The method `SetState` of `Sdk`. -/
def Sdk.SetState (key : String) (value : GoValue) : Go Unit := do
  let kv ← openKVFile ((← Sdk.GetStatePath) ++ "/state.json")
  let _ ← kv.set key value
  return ()

/-- The method `GetConfig` of `Sdk`. -/
def Sdk.GetConfig (key : String) : Go GoValue := do
  let kv ← openKVFile ((← Sdk.GetConfigPath) ++ "/config.json")
  return kv.get key

/-- The method `SetConfig` of `Sdk`. -/
def Sdk.SetConfig (key : String) (value : GoValue) : Go Unit := do
  let kv ← openKVFile ((← Sdk.GetConfigPath) ++ "/config.json")
  let _ ← kv.set key value
  return ()

/-- The comparison `value == nil` of an `interface{}`. -/
def GoValue.isNil : GoValue → Bool
  | .null => true
  | _ => false

/-- The type assertion `value.(string)`: panics unless the value is a string. -/
def assertString (value : GoValue) : Go String :=
  match value with
  | .str s => pure s
  | _ => goPanic .typeAssertion

/-- The method `GetSecret` of `Sdk`; the result is the pair `(string, error)`. -/
def Sdk.GetSecret (key : String) : Go (String × Option GoError) := do
  match (← daemon.AsyncRequest "secret/get" (.getSecret { Key := key })) with
  | .error err => return ("", some err)
  | .ok body =>
    match body.lookup key with
    | some value => return (← assertString value, none)
    | none => return ("", some (fmt.Errorf "Body should include key " key ""))

/-- The method `SetSecret` of `Sdk`; the result is the pair `(string, error)`. -/
def Sdk.SetSecret (key : String) (value : String) : Go (String × Option GoError) := do
  match (← daemon.AsyncRequest "secret/set" (.setSecret { Key := key, Value := value })) with
  | .error err => return ("", some err)
  | .ok body =>
    match body.lookup "key" with
    | some value =>
      if value.isNil then return ("", some (fmt.Errorf "Secret set of " key " failed"))
      else return (← assertString value, none)
    | none => return ("", some (fmt.Errorf "Secret set of " key " failed"))

/-- The request body `Track` builds: `tags` and `event` first, then every
metadata entry stored over them. The `[]string` is the slice of its strings;
`range` visits the entries in an unspecified order, here the order of the
entry list (the result is the same in any order, `range_order_irrelevant`). -/
def trackBody (tags : List String) (event : String) (metadata : GoMap) : GoMap :=
  let requestBody : GoMap :=
    ((∅ : GoMap).insert "tags" (.slice (tags.map .str))).insert "event" (.str event)
  metadata.foldl (fun requestBody k v => requestBody.insert k v) requestBody

/-- The method `Track` of `Sdk`; the result is the `error`. -/
def Sdk.Track (tags : List String) (event : String) (metadata : GoMap) :
    Go (Option GoError) := do
  let requestBody := trackBody tags event metadata
  let _ ← daemon.SimpleRequest "track" (.fields requestBody)
  return none

/-! ## `ux.go` -/

/-- The method `Print` of `Ux`. -/
def Ux.Print (text : String) : Go (Option GoError) :=
  daemon.SimpleRequest "print" (.print { Text := text })

/-- The method `SpinnerStart` of `Ux`. -/
def Ux.SpinnerStart (text : String) : Go (Option GoError) :=
  daemon.SimpleRequest "start-spinner" (.spinnerStart { Text := text })

/-- The method `SpinnerStop` of `Ux`. -/
def Ux.SpinnerStop (text : String) : Go (Option GoError) :=
  daemon.SimpleRequest "stop-spinner" (.spinnerStop { Text := text })

/-- The method `ProgressBarStart` of `Ux`. -/
def Ux.ProgressBarStart (length initial : Int) (message : String) : Go (Option GoError) :=
  daemon.SimpleRequest "progress-bar/start"
    (.progressBarStart { Length := length, Initial := initial, Text := message })

/-- The method `ProgressBarAdvance` of `Ux`. -/
def Ux.ProgressBarAdvance (increment : Int) : Go (Option GoError) :=
  daemon.SimpleRequest "progress-bar/advance" (.progressBarAdvance { Increment := increment })

/-- The method `ProgressBarStop` of `Ux`. -/
def Ux.ProgressBarStop (message : String) : Go (Option GoError) :=
  daemon.SimpleRequest "progress-bar/stop" (.progressBarStop { Text := message })

/-! ## Worlds to evaluate in -/

/-- A daemon that accepts every request and answers with an empty object. -/
def quietDaemon : Daemon where
  simpleResult := fun _ _ => none
  asyncResult := fun _ _ => .ok ∅

/-- A world with both directories configured and no file yet. -/
def freshWorld : World where
  env := fun name =>
    if name = "SDK_STATE_DIR" then some "/ops/state"
    else if name = "SDK_CONFIG_DIR" then some "/ops/config"
    else none
  files := fun _ => none
  unreadable := fun _ => false
  unwritable := fun _ => false
  daemon := quietDaemon
  trace := []

/-- The fresh world with a daemon that gives one fixed answer to every
await-response request and one fixed result to every fire-and-forget request. -/
def answering (answer : Except GoError GoMap) (result : Option GoError) : World :=
  { freshWorld with
    daemon := { simpleResult := fun _ _ => result, asyncResult := fun _ _ => answer } }

/-- A world with no directory configured. -/
def bareWorld : World := { freshWorld with env := fun _ => none }

/-- A world whose state file already holds the object with `a` mapped to 1. -/
def storedWorld : World :=
  { freshWorld with
    files := fun p =>
      if p = "/ops/state/state.json" then some (.json (.object [("a", .number 1)])) else none }

/-- Between `w` and `w'` every file system call concerns `path`, and no file
other than `path` changed. -/
def OnlyAt (path : String) (w w' : World) : Prop :=
  (∃ evs : List Event, w'.trace = w.trace ++ evs ∧ ∀ e ∈ evs, e.filePath = some path) ∧
    ∀ p, p ≠ path → w'.files p = w.files p

/-! ## Outcomes, described -/

/-- The error `openKVFile` panics with when a file is at the path. -/
def openError (w : World) (filename : String) (c : FileContents) : GoError :=
  if w.unreadable filename then .pathError "open" filename
  else match c with
    | .json _ => .json .invalidUnmarshal
    | .malformed _ => .json .syntaxError

/-- What `GetSecret` does with a decoded response. -/
def getSecretOutcome (key : String) (body : GoMap) : Outcome (String × Option GoError) :=
  match body.lookup key with
  | some (.str s) => .returned (s, none)
  | some _ => .panicked .typeAssertion
  | none => .returned ("", some (.errorf ("Body should include key " ++ key)))

/-- What `SetSecret` does with a decoded response. -/
def setSecretOutcome (key : String) (body : GoMap) : Outcome (String × Option GoError) :=
  match body.lookup "key" with
  | some (.str s) => .returned (s, none)
  | some .null => .returned ("", some (.errorf ("Secret set of " ++ key ++ " failed")))
  | some _ => .panicked .typeAssertion
  | none => .returned ("", some (.errorf ("Secret set of " ++ key ++ " failed")))

/-! ## Running computations -/

/-- Running `os.Stat`. -/
theorem os.Stat_run (filename : String) (w : World) :
    os.Stat filename w =
      ((match w.files filename with
          | some _ => .returned none
          | none => .returned (some (.pathError "stat" filename))),
        { w with trace := w.trace ++ [.stat filename] }) := by
  simp only [os.Stat, bind, Go.bind, record]
  cases h : w.files filename <;> rfl

/-- Opening a store at a path that holds no file: the empty store, after one
`os.Stat`. -/
theorem openKVFile_absent (filename : String) (w : World) (h : w.files filename = none) :
    openKVFile filename w =
      (.returned { filename := filename, data := ∅ },
        { w with trace := w.trace ++ [.stat filename] }) := by
  simp only [openKVFile, bind, Go.bind, os.Stat_run, h]
  rfl

/-- Opening a store at a path that holds a file panics, whatever the file
holds: the map handed to `json.Unmarshal` is not a pointer. -/
theorem openKVFile_present (filename : String) (w : World) (c : FileContents)
    (h : w.files filename = some c) :
    openKVFile filename w =
      (.panicked (.err (openError w filename c)),
        { w with trace := w.trace ++ [.stat filename, .readFile filename] }) := by
  simp only [openKVFile, bind, Go.bind, os.Stat_run, h, ioutil.ReadFile, record, openError]
  cases hu : w.unreadable filename
  · cases c <;> simp [json.Unmarshal, goPanic]
  · simp [goPanic]

/-- Running `set`. -/
theorem kvFile.set_run (kv : kvFile) (key : String) (value : GoValue) (w : World) :
    kv.set key value w =
      match json.Marshal (kv.data.insert key value) with
      | .error err => (.panicked (.err err), w)
      | .ok c =>
        if w.unwritable kv.filename then
          (.panicked (.err (.pathError "open" kv.filename)),
            { w with trace := w.trace ++ [.writeFile kv.filename c 0o644] })
        else
          (.returned { kv with data := kv.data.insert key value },
            { w with
              trace := w.trace ++ [.writeFile kv.filename c 0o644]
              files := fun p => if p = kv.filename then some c else w.files p }) := by
  simp only [kvFile.set]
  cases hm : json.Marshal (kv.data.insert key value) with
  | error err => rfl
  | ok c =>
    simp only [bind, Go.bind, ioutil.WriteFile, record]
    cases hu : w.unwritable kv.filename <;> simp [goPanic, pure]

/-- After a `set` that returned, the file is there. -/
theorem kvFile.set_returned_file (kv : kvFile) (key : String) (value : GoValue) (w : World)
    (kv' : kvFile) (h : (kv.set key value w).1 = .returned kv') :
    ∃ c, (kv.set key value w).2.files kv.filename = some c := by
  rw [kvFile.set_run] at h ⊢
  cases hm : json.Marshal (kv.data.insert key value) with
  | error err => simp [hm] at h
  | ok c =>
    cases hu : w.unwritable kv.filename
    · exact ⟨c, by simp [hu]⟩
    · simp [hm, hu] at h

/-- Whenever `set` on a freshly opened store returns, opening the store again
panics: the written file is there, and `openKVFile` cannot read any file. -/
theorem reopen_after_set_panics (path key : String) (value : GoValue) (w : World)
    (kv kv' : kvFile) (hname : kv.filename = path)
    (h : (kv.set key value w).1 = .returned kv') :
    ∃ p, (openKVFile path (kv.set key value w).2).1 = .panicked p := by
  obtain ⟨c, hc⟩ := kvFile.set_returned_file kv key value w kv' h
  rw [hname] at hc
  exact ⟨_, by rw [openKVFile_present path _ c hc]⟩

/-- Opening a store only concerns its file. -/
theorem openKVFile_onlyAt (filename : String) (w : World) :
    OnlyAt filename w (openKVFile filename w).2 := by
  cases h : w.files filename with
  | none =>
    rw [openKVFile_absent filename w h]
    exact ⟨⟨[.stat filename], rfl, by simp [Event.filePath]⟩, fun _ _ => rfl⟩
  | some c =>
    rw [openKVFile_present filename w c h]
    exact ⟨⟨[.stat filename, .readFile filename], rfl, by simp [Event.filePath]⟩,
      fun _ _ => rfl⟩

/-- Writing through `set` only concerns its file. -/
theorem kvFile.set_onlyAt (kv : kvFile) (key : String) (value : GoValue) (w : World) :
    OnlyAt kv.filename w (kv.set key value w).2 := by
  rw [kvFile.set_run]
  cases hm : json.Marshal (kv.data.insert key value) with
  | error err => exact ⟨⟨[], by simp, by simp⟩, fun _ _ => rfl⟩
  | ok c =>
    cases hu : w.unwritable kv.filename
    · refine ⟨⟨[.writeFile kv.filename c 0o644], by simp, by simp [Event.filePath]⟩, ?_⟩
      intro p hp
      simp [hp]
    · exact ⟨⟨[.writeFile kv.filename c 0o644], by simp, by simp [Event.filePath]⟩,
        fun _ _ => by simp⟩

/-- Composition of `OnlyAt`. -/
theorem OnlyAt.trans {path : String} {w₁ w₂ w₃ : World}
    (h₁ : OnlyAt path w₁ w₂) (h₂ : OnlyAt path w₂ w₃) : OnlyAt path w₁ w₃ := by
  obtain ⟨⟨e₁, ht₁, he₁⟩, hf₁⟩ := h₁
  obtain ⟨⟨e₂, ht₂, he₂⟩, hf₂⟩ := h₂
  refine ⟨⟨e₁ ++ e₂, by rw [ht₂, ht₁, List.append_assoc], ?_⟩, ?_⟩
  · intro e he
    rcases List.mem_append.mp he with h | h
    · exact he₁ e h
    · exact he₂ e h
  · intro p hp
    rw [hf₂ p hp, hf₁ p hp]

/-- The filename of an opened store is the one asked for. -/
theorem openKVFile_filename (filename : String) (w : World) (kv : kvFile)
    (h : (openKVFile filename w).1 = .returned kv) : kv.filename = filename := by
  cases hf : w.files filename with
  | none =>
    rw [openKVFile_absent filename w hf] at h
    cases h
    rfl
  | some c =>
    rw [openKVFile_present filename w c hf] at h
    cases h

/-- Running `GetStatePath`. -/
theorem Sdk.GetStatePath_run (w : World) :
    Sdk.GetStatePath w =
      if (w.env "SDK_STATE_DIR").getD "" = "" then
        (.panicked (.text "State directory not found in environment var SDK_STATE_DIR"), w)
      else (.returned ((w.env "SDK_STATE_DIR").getD ""), w) := by
  simp only [Sdk.GetStatePath, bind, Go.bind, os.Getenv]
  split <;> rfl

/-- Running `GetConfigPath`. -/
theorem Sdk.GetConfigPath_run (w : World) :
    Sdk.GetConfigPath w =
      if (w.env "SDK_CONFIG_DIR").getD "" = "" then
        (.panicked (.text "Config directory not found in environment var SDK_CONFIG_DIR"), w)
      else (.returned ((w.env "SDK_CONFIG_DIR").getD ""), w) := by
  simp only [Sdk.GetConfigPath, bind, Go.bind, os.Getenv]
  split <;> rfl

/-- A variable is missing when it is unset or empty. -/
theorem getD_eq_empty_iff (o : Option String) :
    o.getD "" = "" ↔ (o = none ∨ o = some "") := by
  cases o <;> simp

/-- A variable is present when it is set to a non-empty value. -/
theorem getD_of_present (o : Option String) (dir : String) (h : o = some dir)
    (hd : dir ≠ "") : o.getD "" = dir ∧ ¬ o.getD "" = "" := by
  subst h
  exact ⟨rfl, hd⟩

/-- What a path getter returns: exactly a set, non-empty value. -/
theorem returned_iff_present (o : Option String) (p : PanicValue) (w : World) (dir : String) :
    (if o.getD "" = "" then ((.panicked p : Outcome String), w)
      else (.returned (o.getD ""), w)).1 = .returned dir ↔ (o = some dir ∧ dir ≠ "") := by
  cases o with
  | none => simp
  | some v =>
    by_cases hv : v = ""
    · subst hv
      simp
      intro h
      exact h.symm
    · simp only [Option.getD_some, hv, if_false, Outcome.returned.injEq, Option.some.injEq]
      constructor
      · intro h
        subst h
        exact ⟨rfl, hv⟩
      · intro h
        exact h.1

/-- When a path getter panics: exactly on an unset or empty value. -/
theorem panicked_iff_missing (o : Option String) (p : PanicValue) (w : World) :
    (∃ q, (if o.getD "" = "" then ((.panicked p : Outcome String), w)
      else (.returned (o.getD ""), w)).1 = .panicked q) ↔ (o = none ∨ o = some "") := by
  rw [← getD_eq_empty_iff]
  by_cases h : o.getD "" = "" <;> simp [h]

/-- Running a state/config accessor whose directory is missing: the panic of
the path getter, in an untouched world. -/
theorem missing_dir_run {α : Type} (getPath : Go String) (rest : String → Go α)
    (w : World) (p : PanicValue) (h : getPath w = (.panicked p, w)) :
    (getPath >>= rest) w = (.panicked p, w) := by
  simp only [bind, Go.bind, h]

/-- Running a state/config accessor whose directory is present. -/
theorem present_dir_run {α : Type} (getPath : Go String) (rest : String → Go α)
    (w : World) (dir : String) (h : getPath w = (.returned dir, w)) :
    (getPath >>= rest) w = rest dir w := by
  simp only [bind, Go.bind, h]

/-- The world after reading a key only concerns the store's file. -/
theorem open_get_onlyAt (path key : String) (w : World) :
    OnlyAt path w ((openKVFile path >>= fun kv => pure (kv.get key)) w).2 := by
  have h := openKVFile_onlyAt path w
  simp only [bind, Go.bind]
  rcases hr : openKVFile path w with ⟨_ | _, w'⟩ <;> simpa [hr, pure] using h

/-- The world after writing a key only concerns the store's file. -/
theorem open_set_onlyAt (path key : String) (value : GoValue) (w : World) :
    OnlyAt path w
      ((openKVFile path >>= fun kv => kv.set key value >>= fun _ => pure ()) w).2 := by
  have h := openKVFile_onlyAt path w
  have hn := openKVFile_filename path w
  simp only [bind, Go.bind]
  rcases hr : openKVFile path w with ⟨kv | _, w'⟩
  · rw [hr] at h hn
    have hk : kv.filename = path := hn kv rfl
    have h₂ := kvFile.set_onlyAt kv key value w'
    rw [hk] at h₂
    have h₃ := h.trans h₂
    simp only
    rcases hs : kv.set key value w' with ⟨_ | _, w''⟩ <;> simpa [hs, pure] using h₃
  · simpa [hr] using h

/-- C9. `GetStatePath` returns the value of `SDK_STATE_DIR` exactly when it is set
and non-empty and panics exactly when it is unset or empty, and `GetConfigPath`
does so for `SDK_CONFIG_DIR`; with the variable missing, `GetState`, `SetState`,
`GetConfig` and `SetConfig` panic in an untouched world (no file system call in
the trace, no file changed); with the variable set to a non-empty `dir`, they
are `get` and `set` on the store opened at `dir/state.json`, respectively
`dir/config.json`, and every file system call they make concerns that path. -/
theorem state_config_dir_mandatory (w : World) (key : String) (value : GoValue) :
    (∀ dir, (Sdk.GetStatePath w).1 = .returned dir ↔
        (w.env "SDK_STATE_DIR" = some dir ∧ dir ≠ "")) ∧
    ((∃ p, (Sdk.GetStatePath w).1 = .panicked p) ↔
        (w.env "SDK_STATE_DIR" = none ∨ w.env "SDK_STATE_DIR" = some "")) ∧
    (∀ dir, (Sdk.GetConfigPath w).1 = .returned dir ↔
        (w.env "SDK_CONFIG_DIR" = some dir ∧ dir ≠ "")) ∧
    ((∃ p, (Sdk.GetConfigPath w).1 = .panicked p) ↔
        (w.env "SDK_CONFIG_DIR" = none ∨ w.env "SDK_CONFIG_DIR" = some "")) ∧
    ((w.env "SDK_STATE_DIR" = none ∨ w.env "SDK_STATE_DIR" = some "") →
        (∃ p, Sdk.GetState key w = (.panicked p, w)) ∧
        (∃ p, Sdk.SetState key value w = (.panicked p, w))) ∧
    ((w.env "SDK_CONFIG_DIR" = none ∨ w.env "SDK_CONFIG_DIR" = some "") →
        (∃ p, Sdk.GetConfig key w = (.panicked p, w)) ∧
        (∃ p, Sdk.SetConfig key value w = (.panicked p, w))) ∧
    (∀ dir, w.env "SDK_STATE_DIR" = some dir → dir ≠ "" →
        Sdk.GetState key w
          = (openKVFile (dir ++ "/state.json") >>= fun kv => pure (kv.get key)) w ∧
        Sdk.SetState key value w
          = (openKVFile (dir ++ "/state.json") >>= fun kv =>
              kv.set key value >>= fun _ => pure ()) w ∧
        OnlyAt (dir ++ "/state.json") w (Sdk.GetState key w).2 ∧
        OnlyAt (dir ++ "/state.json") w (Sdk.SetState key value w).2) ∧
    (∀ dir, w.env "SDK_CONFIG_DIR" = some dir → dir ≠ "" →
        Sdk.GetConfig key w
          = (openKVFile (dir ++ "/config.json") >>= fun kv => pure (kv.get key)) w ∧
        Sdk.SetConfig key value w
          = (openKVFile (dir ++ "/config.json") >>= fun kv =>
              kv.set key value >>= fun _ => pure ()) w ∧
        OnlyAt (dir ++ "/config.json") w (Sdk.GetConfig key w).2 ∧
        OnlyAt (dir ++ "/config.json") w (Sdk.SetConfig key value w).2) := by
  refine ⟨?_, ?_, ?_, ?_, ?_, ?_, ?_, ?_⟩
  · intro dir
    rw [Sdk.GetStatePath_run]
    exact returned_iff_present _ _ _ _
  · rw [Sdk.GetStatePath_run]
    exact panicked_iff_missing _ _ _
  · intro dir
    rw [Sdk.GetConfigPath_run]
    exact returned_iff_present _ _ _ _
  · rw [Sdk.GetConfigPath_run]
    exact panicked_iff_missing _ _ _
  · intro h
    have hp := Sdk.GetStatePath_run w
    rw [if_pos ((getD_eq_empty_iff _).mpr h)] at hp
    exact ⟨⟨_, missing_dir_run Sdk.GetStatePath _ w _ hp⟩,
      ⟨_, missing_dir_run Sdk.GetStatePath _ w _ hp⟩⟩
  · intro h
    have hp := Sdk.GetConfigPath_run w
    rw [if_pos ((getD_eq_empty_iff _).mpr h)] at hp
    exact ⟨⟨_, missing_dir_run Sdk.GetConfigPath _ w _ hp⟩,
      ⟨_, missing_dir_run Sdk.GetConfigPath _ w _ hp⟩⟩
  · intro dir h hd
    have hp := Sdk.GetStatePath_run w
    obtain ⟨h₁, h₂⟩ := getD_of_present _ dir h hd
    rw [if_neg h₂, h₁] at hp
    have hg : Sdk.GetState key w
        = (openKVFile (dir ++ "/state.json") >>= fun kv => pure (kv.get key)) w :=
      present_dir_run Sdk.GetStatePath _ w dir hp
    have hs : Sdk.SetState key value w
        = (openKVFile (dir ++ "/state.json") >>= fun kv =>
            kv.set key value >>= fun _ => pure ()) w :=
      present_dir_run Sdk.GetStatePath _ w dir hp
    refine ⟨hg, hs, ?_, ?_⟩
    · rw [hg]
      exact open_get_onlyAt _ _ _
    · rw [hs]
      exact open_set_onlyAt _ _ _ _
  · intro dir h hd
    have hp := Sdk.GetConfigPath_run w
    obtain ⟨h₁, h₂⟩ := getD_of_present _ dir h hd
    rw [if_neg h₂, h₁] at hp
    have hg : Sdk.GetConfig key w
        = (openKVFile (dir ++ "/config.json") >>= fun kv => pure (kv.get key)) w :=
      present_dir_run Sdk.GetConfigPath _ w dir hp
    have hs : Sdk.SetConfig key value w
        = (openKVFile (dir ++ "/config.json") >>= fun kv =>
            kv.set key value >>= fun _ => pure ()) w :=
      present_dir_run Sdk.GetConfigPath _ w dir hp
    refine ⟨hg, hs, ?_, ?_⟩
    · rw [hg]
      exact open_get_onlyAt _ _ _
    · rw [hs]
      exact open_set_onlyAt _ _ _ _

/-- Witness for C9: with `SDK_STATE_DIR` set to `/ops/state` the getter returns
it and `SetState` only concerns `/ops/state/state.json`; with nothing set,
`GetState` panics in an untouched world. -/
theorem state_config_dir_mandatory_witness :
    (Sdk.GetStatePath freshWorld).1 = .returned "/ops/state" ∧
    (∃ p, Sdk.GetState "k" bareWorld = (.panicked p, bareWorld)) ∧
    OnlyAt ("/ops/state" ++ "/state.json") freshWorld
      (Sdk.SetState "k" (.str "v") freshWorld).2 :=
  ⟨((state_config_dir_mandatory freshWorld "k" (.str "v")).1 "/ops/state").mpr
      ⟨rfl, by decide⟩,
    ((state_config_dir_mandatory bareWorld "k" (.str "v")).2.2.2.2.1 (Or.inl rfl)).1,
    ((state_config_dir_mandatory freshWorld "k" (.str "v")).2.2.2.2.2.2.1
      "/ops/state" rfl (by decide)).2.2.2⟩

/-- C3. At a path that holds no file, `openKVFile(path).get(key)` returns `nil`
without panicking; the only call made is one `os.Stat`, no file changes, and
the file is still absent afterwards. -/
theorem get_on_absent_file (w : World) (path key : String) (h : w.files path = none) :
    (openKVFile path >>= fun kv => pure (kv.get key)) w
      = (.returned GoValue.null, { w with trace := w.trace ++ [.stat path] }) ∧
    ((openKVFile path >>= fun kv => pure (kv.get key)) w).2.files = w.files ∧
    ((openKVFile path >>= fun kv => pure (kv.get key)) w).2.files path = none := by
  have hrun : (openKVFile path >>= fun kv => pure (kv.get key)) w
      = (.returned GoValue.null, { w with trace := w.trace ++ [.stat path] }) := by
    simp only [bind, Go.bind, openKVFile_absent path w h]
    rfl
  refine ⟨hrun, ?_, ?_⟩
  · rw [hrun]
  · rw [hrun]
    exact h

/-- Witness for C3: no file at `/ops/state/state.json` in the fresh world. -/
theorem get_on_absent_file_witness :
    freshWorld.files "/ops/state/state.json" = none ∧
    ((openKVFile "/ops/state/state.json" >>= fun kv => pure (kv.get "k")) freshWorld).1
      = .returned GoValue.null :=
  ⟨rfl, congrArg Prod.fst (get_on_absent_file freshWorld "/ops/state/state.json" "k" rfl).1⟩

/-- C1, at the input `SetState("k", "v")` then `GetState("k")` in a world with
no state file: the write returns and leaves the object with `k` mapped to `v`
in `/ops/state/state.json`, and the read that follows panics with
`InvalidUnmarshalError` instead of returning `"v"`; so does `get` on the store
opened afresh after `set`. -/
theorem set_then_get_panics :
    (Sdk.SetState "k" (.str "v") freshWorld).1 = .returned () ∧
    (Sdk.SetState "k" (.str "v") freshWorld).2.files "/ops/state/state.json"
      = some (.json (.object [("k", .str "v")])) ∧
    ((Sdk.SetState "k" (.str "v") >>= fun _ => Sdk.GetState "k") freshWorld).1
      = .panicked (.err (.json .invalidUnmarshal)) ∧
    ((openKVFile "/ops/state/state.json" >>= fun kv =>
        kv.set "k" (.str "v") >>= fun _ =>
        openKVFile "/ops/state/state.json" >>= fun kv' => pure (kv'.get "k")) freshWorld).1
      = .panicked (.err (.json .invalidUnmarshal)) :=
  ⟨rfl, rfl, rfl, rfl⟩

/-- C2, at the input `set("b", 2)` on the store whose file holds the object
with `a` mapped to 1: opening the store panics with `InvalidUnmarshalError`,
`set` is never reached, and the file holds what it held (no `b`). -/
theorem set_on_existing_file_panics :
    storedWorld.files "/ops/state/state.json"
      = some (.json (.object [("a", .number 1)])) ∧
    ((openKVFile "/ops/state/state.json" >>= fun kv =>
        kv.set "b" (.number 2)) storedWorld).1
      = .panicked (.err (.json .invalidUnmarshal)) ∧
    ((openKVFile "/ops/state/state.json" >>= fun kv =>
        kv.set "b" (.number 2)) storedWorld).2.files "/ops/state/state.json"
      = some (.json (.object [("a", .number 1)])) ∧
    (Sdk.SetState "b" (.number 2) storedWorld).1
      = .panicked (.err (.json .invalidUnmarshal)) :=
  ⟨rfl, rfl, rfl, rfl⟩

/-- Running `GetSecret`: one await-response request, then the response decides. -/
theorem Sdk.GetSecret_run (key : String) (w : World) :
    (Sdk.GetSecret key w).1 =
      match w.daemon.asyncResult "secret/get" (.getSecret { Key := key }) with
      | .error err => .returned ("", some err)
      | .ok body => getSecretOutcome key body := by
  simp only [Sdk.GetSecret, bind, Go.bind, daemon.AsyncRequest, record, getSecretOutcome]
  cases w.daemon.asyncResult "secret/get" (.getSecret { Key := key }) with
  | error err => rfl
  | ok body =>
    simp only
    cases body.lookup key with
    | none => simp [pure, fmt.Errorf]
    | some x => cases x <;> rfl

/-- Running `SetSecret`: one await-response request, then the response decides. -/
theorem Sdk.SetSecret_run (key value : String) (w : World) :
    (Sdk.SetSecret key value w).1 =
      match w.daemon.asyncResult "secret/set" (.setSecret { Key := key, Value := value }) with
      | .error err => .returned ("", some err)
      | .ok body => setSecretOutcome key body := by
  simp only [Sdk.SetSecret, bind, Go.bind, daemon.AsyncRequest, record, setSecretOutcome]
  cases w.daemon.asyncResult "secret/set" (.setSecret { Key := key, Value := value }) with
  | error err => rfl
  | ok body =>
    simp only
    cases body.lookup "key" with
    | none => rfl
    | some x => cases x <;> rfl

/-- C4. `GetSecret(k)` and the answer to its `secret/get` request: a response
object that maps `k` to a string `v` gives `(v, nil)`; a response object
without `k` gives the empty string and the error `Body should include key k`,
whose message contains `k`; a failed call with error `e` gives `("", e)`. -/
theorem getSecret_result (w : World) (k : String) :
    (∀ body v, w.daemon.asyncResult "secret/get" (.getSecret { Key := k }) = .ok body →
        body.lookup k = some (.str v) →
        (Sdk.GetSecret k w).1 = .returned (v, none)) ∧
    (∀ body, w.daemon.asyncResult "secret/get" (.getSecret { Key := k }) = .ok body →
        body.lookup k = none →
        (Sdk.GetSecret k w).1
          = .returned ("", some (.errorf ("Body should include key " ++ k))) ∧
        k.data <:+: ("Body should include key " ++ k).data) ∧
    (∀ e, w.daemon.asyncResult "secret/get" (.getSecret { Key := k }) = .error e →
        (Sdk.GetSecret k w).1 = .returned ("", some e)) := by
  refine ⟨?_, ?_, ?_⟩
  · intro body v hb hv
    rw [Sdk.GetSecret_run, hb]
    simp only [getSecretOutcome, hv]
  · intro body hb hv
    refine ⟨?_, ?_⟩
    · rw [Sdk.GetSecret_run, hb]
      simp only [getSecretOutcome, hv]
    · rw [String.data_append]
      exact (List.suffix_append _ _).isInfix
  · intro e he
    rw [Sdk.GetSecret_run, he]

/-- Witness for C4: the responses with `k` mapped to `"v"`, the empty response,
and a refused connection. -/
theorem getSecret_result_witness :
    (Sdk.GetSecret "k" (answering (.ok ((∅ : GoMap).insert "k" (.str "v"))) none)).1
      = .returned ("v", none) ∧
    (Sdk.GetSecret "k" (answering (.ok ∅) none)).1
      = .returned ("", some (.errorf ("Body should include key " ++ "k"))) ∧
    (Sdk.GetSecret "k" (answering (.error (.transport "refused")) none)).1
      = .returned ("", some (.transport "refused")) :=
  ⟨(getSecret_result (answering (.ok ((∅ : GoMap).insert "k" (.str "v"))) none) "k").1
      _ "v" rfl rfl,
    ((getSecret_result (answering (.ok ∅) none) "k").2.1 _ rfl rfl).1,
    (getSecret_result (answering (.error (.transport "refused")) none) "k").2.2 _ rfl⟩

/-- C5. `SetSecret(k, v)` and the answer to its `secret/set` request: a response
whose `"key"` entry is a string `s` gives `(s, nil)`; a response without a
`"key"` entry, or with `null` there, gives the empty string and the error
`Secret set of k failed`; and the string returned is decided by the response
alone: two calls, with any arguments, that get the same response return the
same string (or both panic). -/
theorem setSecret_result (w : World) (k v : String) :
    (∀ body s,
        w.daemon.asyncResult "secret/set" (.setSecret { Key := k, Value := v }) = .ok body →
        body.lookup "key" = some (.str s) →
        (Sdk.SetSecret k v w).1 = .returned (s, none)) ∧
    (∀ body,
        w.daemon.asyncResult "secret/set" (.setSecret { Key := k, Value := v }) = .ok body →
        (body.lookup "key" = none ∨ body.lookup "key" = some .null) →
        (Sdk.SetSecret k v w).1
          = .returned ("", some (.errorf ("Secret set of " ++ k ++ " failed")))) ∧
    (∀ body (w' : World) (k' v' : String),
        w.daemon.asyncResult "secret/set" (.setSecret { Key := k, Value := v }) = .ok body →
        w'.daemon.asyncResult "secret/set" (.setSecret { Key := k', Value := v' }) = .ok body →
        (Sdk.SetSecret k v w).1.map Prod.fst = (Sdk.SetSecret k' v' w').1.map Prod.fst) := by
  refine ⟨?_, ?_, ?_⟩
  · intro body s hb hs
    rw [Sdk.SetSecret_run, hb]
    simp only [setSecretOutcome, hs]
  · intro body hb hs
    rw [Sdk.SetSecret_run, hb]
    rcases hs with hs | hs <;> simp only [setSecretOutcome, hs]
  · intro body w' k' v' hb hb'
    rw [Sdk.SetSecret_run, hb, Sdk.SetSecret_run, hb']
    simp only [setSecretOutcome]
    cases hl : body.lookup "key" with
    | none => rfl
    | some x => cases x <;> rfl

/-- Witness for C5: the response with `"key"` mapped to `"stored"` (not the
value sent), the response with `"key"` mapped to `null`, and two calls with
different arguments on the same response. -/
theorem setSecret_result_witness :
    (Sdk.SetSecret "k" "v"
        (answering (.ok ((∅ : GoMap).insert "key" (.str "stored"))) none)).1
      = .returned ("stored", none) ∧
    (Sdk.SetSecret "k" "v" (answering (.ok ((∅ : GoMap).insert "key" .null)) none)).1
      = .returned ("", some (.errorf ("Secret set of " ++ "k" ++ " failed"))) ∧
    (Sdk.SetSecret "k" "v"
        (answering (.ok ((∅ : GoMap).insert "key" (.str "stored"))) none)).1.map Prod.fst
      = (Sdk.SetSecret "other" "w"
        (answering (.ok ((∅ : GoMap).insert "key" (.str "stored"))) none)).1.map Prod.fst :=
  ⟨(setSecret_result (answering (.ok ((∅ : GoMap).insert "key" (.str "stored"))) none)
      "k" "v").1 _ "stored" rfl rfl,
    (setSecret_result (answering (.ok ((∅ : GoMap).insert "key" .null)) none)
      "k" "v").2.1 _ rfl (Or.inr rfl),
    (setSecret_result (answering (.ok ((∅ : GoMap).insert "key" (.str "stored"))) none)
      "k" "v").2.2 _ (answering (.ok ((∅ : GoMap).insert "key" (.str "stored"))) none)
      "other" "w" rfl rfl⟩

/-- C10. The type assertions on secret responses are unchecked: when the
response maps the requested key to a value that is not a string, `GetSecret`
panics, and when the response's `"key"` entry is neither `null` nor a string,
`SetSecret` panics; on a decoded response, `GetSecret` returns an error exactly
when the key is absent, and `SetSecret` exactly when `"key"` is absent or
`null`. -/
theorem secret_type_assertion_unchecked (w : World) (k v : String) :
    (∀ body x, w.daemon.asyncResult "secret/get" (.getSecret { Key := k }) = .ok body →
        body.lookup k = some x → (∀ s, x ≠ .str s) →
        (Sdk.GetSecret k w).1 = .panicked .typeAssertion) ∧
    (∀ body x,
        w.daemon.asyncResult "secret/set" (.setSecret { Key := k, Value := v }) = .ok body →
        body.lookup "key" = some x → x ≠ .null → (∀ s, x ≠ .str s) →
        (Sdk.SetSecret k v w).1 = .panicked .typeAssertion) ∧
    (∀ body, w.daemon.asyncResult "secret/get" (.getSecret { Key := k }) = .ok body →
        ((∃ s e, (Sdk.GetSecret k w).1 = .returned (s, some e)) ↔ body.lookup k = none)) ∧
    (∀ body,
        w.daemon.asyncResult "secret/set" (.setSecret { Key := k, Value := v }) = .ok body →
        ((∃ s e, (Sdk.SetSecret k v w).1 = .returned (s, some e)) ↔
          (body.lookup "key" = none ∨ body.lookup "key" = some .null))) := by
  refine ⟨?_, ?_, ?_, ?_⟩
  · intro body x hb hx hs
    rw [Sdk.GetSecret_run, hb]
    cases x <;> first | exact absurd rfl (hs _) | simp only [getSecretOutcome, hx]
  · intro body x hb hx hn hs
    rw [Sdk.SetSecret_run, hb]
    cases x <;>
      first
        | exact absurd rfl (hs _)
        | exact absurd rfl hn
        | simp only [setSecretOutcome, hx]
  · intro body hb
    rw [Sdk.GetSecret_run, hb]
    simp only [getSecretOutcome]
    cases hl : body.lookup k with
    | none => simp
    | some x => cases x <;> simp
  · intro body hb
    rw [Sdk.SetSecret_run, hb]
    simp only [setSecretOutcome]
    cases hl : body.lookup "key" with
    | none => simp
    | some x => cases x <;> simp

/-- Witness for C10: responses that map the key to the number 7. -/
theorem secret_type_assertion_unchecked_witness :
    (Sdk.GetSecret "k" (answering (.ok ((∅ : GoMap).insert "k" (.number 7))) none)).1
      = .panicked .typeAssertion ∧
    (Sdk.SetSecret "k" "v" (answering (.ok ((∅ : GoMap).insert "key" (.number 7))) none)).1
      = .panicked .typeAssertion :=
  ⟨(secret_type_assertion_unchecked
      (answering (.ok ((∅ : GoMap).insert "k" (.number 7))) none) "k" "v").1
      _ (.number 7) rfl rfl (fun _ h => GoValue.noConfusion h),
    (secret_type_assertion_unchecked
      (answering (.ok ((∅ : GoMap).insert "key" (.number 7))) none) "k" "v").2.1
      _ (.number 7) rfl rfl (fun h => GoValue.noConfusion h)
      (fun _ h => GoValue.noConfusion h)⟩

/-- Storing a list of entries with distinct keys over a map: an entry of the list
wins, every other key keeps what the map had. -/
theorem lookup_foldl_insert (l : List (Sigma fun _ : String => GoValue)) (hl : l.NodupKeys)
    (base : GoMap) (k : String) :
    (l.foldl (fun r a => r.insert a.1 a.2) base).lookup k =
      match l.dlookup k with
      | some v => some v
      | none => base.lookup k := by
  induction l generalizing base with
  | nil => rfl
  | cons hd tl ih =>
    obtain ⟨a, b⟩ := hd
    rw [List.nodupKeys_cons] at hl
    rw [List.foldl_cons, ih hl.2]
    by_cases hk : k = a
    · subst hk
      have hnone : tl.dlookup k = none := List.dlookup_eq_none.mpr hl.1
      rw [hnone, List.dlookup_cons_eq]
      exact AList.lookup_insert base
    · rw [List.dlookup_cons_ne tl ⟨a, b⟩ hk]
      cases tl.dlookup k with
      | some v => rfl
      | none => exact AList.lookup_insert_ne hk

/-- The order in which `range` visits the metadata does not matter: storing
the entries in any order gives the same map, key by key. -/
theorem range_order_irrelevant (metadata : GoMap)
    (l : List (Sigma fun _ : String => GoValue)) (hp : l.Perm metadata.entries)
    (base : GoMap) (k : String) :
    (l.foldl (fun r a => r.insert a.1 a.2) base).lookup k
      = (metadata.foldl (fun r a b => r.insert a b) base).lookup k := by
  have hl : l.NodupKeys := (List.perm_nodupKeys hp).mpr metadata.nodupKeys
  simp only [AList.foldl]
  rw [lookup_foldl_insert l hl, lookup_foldl_insert metadata.entries metadata.nodupKeys,
    List.perm_dlookup k hl metadata.nodupKeys hp]

/-- The body `Track` sends, key by key: metadata first, then `event` and
`tags`. -/
theorem trackBody_lookup (tags : List String) (event : String) (metadata : GoMap)
    (k : String) :
    (trackBody tags event metadata).lookup k =
      match metadata.lookup k with
      | some v => some v
      | none =>
        if k = "event" then some (.str event)
        else if k = "tags" then some (.slice (tags.map .str))
        else none := by
  unfold trackBody
  simp only [AList.foldl]
  rw [lookup_foldl_insert metadata.entries metadata.nodupKeys]
  show (match metadata.lookup k with
      | some v => some v
      | none => _) = _
  cases metadata.lookup k with
  | some v => rfl
  | none =>
    simp only
    by_cases he : k = "event"
    · subst he
      rw [if_pos rfl]
      exact AList.lookup_insert _
    · rw [if_neg he, AList.lookup_insert_ne he]
      by_cases ht : k = "tags"
      · subst ht
        rw [if_pos rfl]
        exact AList.lookup_insert _
      · rw [if_neg ht, AList.lookup_insert_ne ht]
        rfl

/-- C6. `Track` returns no error, for every tags list, event name and metadata
map, and whatever the daemon answers to the request. -/
theorem track_returns_nil (w : World) (tags : List String) (event : String)
    (metadata : GoMap) :
    (Sdk.Track tags event metadata w).1 = .returned none := rfl

/-- C7 as stated fails when the metadata has the key `tags`: with tags `["a"]`
and metadata mapping `tags` to `"x"`, the one request sent has a body that
maps `tags` to `"x"`, not to the given tags. -/
theorem track_metadata_overrides_tags :
    (Sdk.Track ["a"] "ev" ((∅ : GoMap).insert "tags" (.str "x")) freshWorld).2.trace
      = [.simpleRequest "track"
          (.fields (trackBody ["a"] "ev" ((∅ : GoMap).insert "tags" (.str "x"))))] ∧
    (trackBody ["a"] "ev" ((∅ : GoMap).insert "tags" (.str "x"))).lookup "tags"
      = some (.str "x") ∧
    ¬ (trackBody ["a"] "ev" ((∅ : GoMap).insert "tags" (.str "x"))).lookup "tags"
      = some (.slice (["a"].map .str)) := by
  refine ⟨rfl, rfl, ?_⟩
  intro h
  have h' : (some (GoValue.str "x") : Option GoValue) = some (.slice (["a"].map .str)) := h
  exact GoValue.noConfusion (Option.some.inj h')

/-- C7, amended. `Track` issues exactly one fire-and-forget request, to operation
`track`, and returns; the body maps every metadata key to its metadata value,
maps `tags` to the given tags and `event` to the given event name when the
metadata does not have that key, and has no other key. -/
theorem track_request_body (w : World) (tags : List String) (event : String)
    (metadata : GoMap) :
    Sdk.Track tags event metadata w
      = (.returned none,
          { w with
            trace := w.trace ++
              [.simpleRequest "track" (.fields (trackBody tags event metadata))] }) ∧
    (∀ k v, metadata.lookup k = some v →
        (trackBody tags event metadata).lookup k = some v) ∧
    (metadata.lookup "tags" = none →
        (trackBody tags event metadata).lookup "tags" = some (.slice (tags.map .str))) ∧
    (metadata.lookup "event" = none →
        (trackBody tags event metadata).lookup "event" = some (.str event)) ∧
    (∀ k, metadata.lookup k = none → k ≠ "tags" → k ≠ "event" →
        (trackBody tags event metadata).lookup k = none) := by
  refine ⟨rfl, ?_, ?_, ?_, ?_⟩
  · intro k v h
    rw [trackBody_lookup, h]
  · intro h
    rw [trackBody_lookup, h]
    rfl
  · intro h
    rw [trackBody_lookup, h]
    rfl
  · intro k h ht he
    rw [trackBody_lookup, h]
    simp only [if_neg he, if_neg ht]

/-- Witness for C7, amended: tags `["a"]`, event `ev`, metadata mapping `x` to 1. -/
theorem track_request_body_witness :
    (trackBody ["a"] "ev" ((∅ : GoMap).insert "x" (.number 1))).lookup "x"
      = some (.number 1) ∧
    (trackBody ["a"] "ev" ((∅ : GoMap).insert "x" (.number 1))).lookup "tags"
      = some (.slice (["a"].map .str)) ∧
    (trackBody ["a"] "ev" ((∅ : GoMap).insert "x" (.number 1))).lookup "event"
      = some (.str "ev") ∧
    (trackBody ["a"] "ev" ((∅ : GoMap).insert "x" (.number 1))).lookup "y" = none :=
  ⟨(track_request_body freshWorld ["a"] "ev" ((∅ : GoMap).insert "x" (.number 1))).2.1
      "x" (.number 1) rfl,
    (track_request_body freshWorld ["a"] "ev" ((∅ : GoMap).insert "x" (.number 1))).2.2.1
      rfl,
    (track_request_body freshWorld ["a"] "ev" ((∅ : GoMap).insert "x" (.number 1))).2.2.2.1
      rfl,
    (track_request_body freshWorld ["a"] "ev" ((∅ : GoMap).insert "x" (.number 1))).2.2.2.2
      "y" rfl (by decide) (by decide)⟩

/-- C8. Each presentation operation issues exactly one fire-and-forget request,
to its operation and with its arguments unchanged in the body, and returns that
request's result: `Print` to `print`, `SpinnerStart` to `start-spinner`,
`SpinnerStop` to `stop-spinner`, `ProgressBarStart` to `progress-bar/start`,
`ProgressBarAdvance` to `progress-bar/advance`, `ProgressBarStop` to
`progress-bar/stop`. -/
theorem ux_one_request_each (w : World) (text message : String)
    (length initial increment : Int) :
    Ux.Print text w
      = (.returned (w.daemon.simpleResult "print" (.print { Text := text })),
          { w with trace := w.trace ++
              [.simpleRequest "print" (.print { Text := text })] }) ∧
    Ux.SpinnerStart text w
      = (.returned (w.daemon.simpleResult "start-spinner" (.spinnerStart { Text := text })),
          { w with trace := w.trace ++
              [.simpleRequest "start-spinner" (.spinnerStart { Text := text })] }) ∧
    Ux.SpinnerStop text w
      = (.returned (w.daemon.simpleResult "stop-spinner" (.spinnerStop { Text := text })),
          { w with trace := w.trace ++
              [.simpleRequest "stop-spinner" (.spinnerStop { Text := text })] }) ∧
    Ux.ProgressBarStart length initial message w
      = (.returned (w.daemon.simpleResult "progress-bar/start"
            (.progressBarStart { Length := length, Initial := initial, Text := message })),
          { w with trace := w.trace ++
              [.simpleRequest "progress-bar/start"
                (.progressBarStart
                  { Length := length, Initial := initial, Text := message })] }) ∧
    Ux.ProgressBarAdvance increment w
      = (.returned (w.daemon.simpleResult "progress-bar/advance"
            (.progressBarAdvance { Increment := increment })),
          { w with trace := w.trace ++
              [.simpleRequest "progress-bar/advance"
                (.progressBarAdvance { Increment := increment })] }) ∧
    Ux.ProgressBarStop message w
      = (.returned (w.daemon.simpleResult "progress-bar/stop"
            (.progressBarStop { Text := message })),
          { w with trace := w.trace ++
              [.simpleRequest "progress-bar/stop"
                (.progressBarStop { Text := message })] }) :=
  ⟨rfl, rfl, rfl, rfl, rfl, rfl⟩

end Ctoai
